import Mathlib

/-!
Verification of the podcast player's playback, checkpoint and restoration
logic against its specification.  The playback engine is the `PodcastApp`
class (plain-JS web application); the cold-start restoration coordinator is
the `PlaybackRestoration` React component.  Machine numbers (audio positions,
durations, rates) are modelled as rationals; `localStorage` is modelled as an
association list from episode id to the stored numeric value.
-/

/-- JavaScript `parseInt` applied to the decimal string of a finite
nonnegative-or-negative number (`parseInt(q.toString())`): the integer part,
truncating toward zero. -/
def jsTrunc (q : Rat) : Int :=
  if 0 ≤ q then q.floor else -((-q).floor)

/-- An episode of the catalog (`loadEpisodes` sample data shape). Dates are
kept as their source string. -/
structure Episode where
  id : Nat
  title : String
  descr : String
  audioUrl : String
  artwork : String
  duration : Rat
  publishDate : String
  playCount : Nat
  category : String
deriving DecidableEq

/-- First sample episode from `loadEpisodes`. -/
def episode1 : Episode :=
  { id := 1
  , title := "Introducción al Desarrollo Web Moderno"
  , descr := "Exploramos las últimas tendencias en desarrollo web, desde frameworks hasta herramientas de build. Una guía completa para desarrolladores que quieren mantenerse actualizados."
  , audioUrl := "https://www.soundjay.com/misc/sounds/bell-ringing-05.wav"
  , artwork := "https://picsum.photos/300/300?random=1"
  , duration := 2700
  , publishDate := "2024-01-15"
  , playCount := 1250
  , category := "Tecnología" }

/-- Second sample episode from `loadEpisodes`. -/
def episode2 : Episode :=
  { id := 2
  , title := "El Futuro de la Inteligencia Artificial"
  , descr := "Conversamos con expertos sobre el impacto de la IA en diferentes industrias y cómo prepararnos para los cambios que vienen."
  , audioUrl := "https://www.soundjay.com/misc/sounds/bell-ringing-05.wav"
  , artwork := "https://picsum.photos/300/300?random=2"
  , duration := 3600
  , publishDate := "2024-01-10"
  , playCount := 980
  , category := "Tecnología" }

/-- Third sample episode from `loadEpisodes`. -/
def episode3 : Episode :=
  { id := 3
  , title := "Productividad Personal: Técnicas Avanzadas"
  , descr := "Métodos probados para mejorar tu productividad personal y profesional. Desde la gestión del tiempo hasta la organización de tareas."
  , audioUrl := "https://www.soundjay.com/misc/sounds/bell-ringing-05.wav"
  , artwork := "https://picsum.photos/300/300?random=3"
  , duration := 2100
  , publishDate := "2024-01-05"
  , playCount := 1450
  , category := "Productividad" }

/-- Lookup in the `localStorage` model (first binding for the key wins, as
there is at most one binding per key). -/
def storeLookup (k : Nat) : List (Nat × Rat) → Option Rat
  | [] => none
  | (k2, v) :: rest => if k2 = k then some v else storeLookup k rest

/-- `localStorage.setItem`: overwrite the binding for `k`, or append one. -/
def storeSet (k : Nat) (v : Rat) : List (Nat × Rat) → List (Nat × Rat)
  | [] => [(k, v)]
  | (k2, v2) :: rest =>
      if k2 = k then (k, v) :: rest else (k2, v2) :: storeSet k v rest

/-- The mutable state of the `PodcastApp` class: its own fields
(`currentEpisode`, `isPlaying`, `currentTime`, `duration`, `volume`,
`playbackRate`, `episodes`, `analytics`), the backing `Audio` element's
fields it reads and writes (`src`, `currentTime`, `paused`, `playbackRate`),
and the `episode_progress_*` keys of `localStorage` (`progressStore`).
`progressWrites` is a ghost counter incremented exactly when
`localStorage.setItem` runs on a progress key, used to count durable
checkpoint writes. -/
structure PodcastApp where
  currentEpisode : Option Episode
  isPlaying : Bool
  currentTime : Rat
  duration : Rat
  volume : Rat
  playbackRate : Rat
  episodes : List Episode
  totalPlays : Nat
  totalTime : Rat
  audioSrc : String
  audioCurrentTime : Rat
  audioPaused : Bool
  audioPlaybackRate : Rat
  progressStore : List (Nat × Rat)
  progressWrites : Nat
deriving DecidableEq

namespace PodcastApp

/-- State built by the constructor on a fresh profile (empty `localStorage`),
after `loadEpisodes` fills the sample catalog. -/
def initialState : PodcastApp :=
  { currentEpisode := none
  , isPlaying := false
  , currentTime := 0
  , duration := 0
  , volume := 1
  , playbackRate := 1
  , episodes := [episode1, episode2, episode3]
  , totalPlays := 0
  , totalTime := 0
  , audioSrc := ""
  , audioCurrentTime := 0
  , audioPaused := true
  , audioPlaybackRate := 1
  , progressStore := []
  , progressWrites := 0 }

/-- `this.episodes.find(e => e.id === episodeId)`. -/
def findEpisode : List Episode → Nat → Option Episode
  | [], _ => none
  | e :: rest, episodeId =>
      if e.id = episodeId then some e else findEpisode rest episodeId

/-- `getEpisodeProgress(episodeId)`: read
`localStorage.getItem('episode_progress_' + episodeId)` and `parseInt` it,
defaulting to `0` when absent. -/
def getEpisodeProgress (s : PodcastApp) (episodeId : Nat) : Int :=
  match storeLookup episodeId s.progressStore with
  | some saved => jsTrunc saved
  | none => 0

/-- `saveProgress()`: when an episode is current and `currentTime > 0`, write
`currentTime.toString()` under that episode's progress key; otherwise do
nothing.  The stored numeric value is kept exactly (the string round-trip is
applied on read by `getEpisodeProgress`). -/
def saveProgress (s : PodcastApp) : PodcastApp :=
  match s.currentEpisode with
  | some e =>
      if 0 < s.currentTime then
        { s with progressStore := storeSet e.id s.currentTime s.progressStore
               , progressWrites := s.progressWrites + 1 }
      else s
  | none => s

/-- The `timeupdate` handler installed by `setupAudioEvents`: the audio
element reports time `t`; the handler copies it into `this.currentTime`
(`updateProgress` only touches the DOM) and then calls `saveProgress()`. -/
def onTimeUpdate (s : PodcastApp) (t : Rat) : PodcastApp :=
  saveProgress { s with audioCurrentTime := t, currentTime := t }

/-- The `loadedmetadata` handler installed by `setupAudioEvents`: copy the
audio element's duration into `this.duration`. -/
def onLoadedMetadata (s : PodcastApp) (d : Rat) : PodcastApp :=
  { s with duration := d }

/-- Synchronous part of `playEpisode(episodeId)`: look the episode up, set
`currentEpisode` and `audio.src`, restore saved progress by assigning
`audio.currentTime` when it is positive, and issue `audio.play()` (whose
asynchronous continuation is `playEpisodeResolved`).  Unknown ids return
without any change. -/
def playEpisode (s : PodcastApp) (episodeId : Nat) : PodcastApp :=
  match findEpisode s.episodes episodeId with
  | none => s
  | some episode =>
      let s1 := { s with currentEpisode := some episode
                       , audioSrc := episode.audioUrl }
      let progress := getEpisodeProgress s1 episodeId
      if 0 < progress then { s1 with audioCurrentTime := (progress : Rat) }
      else s1

/-- The `.then` continuation of the `audio.play()` promise issued by
`playEpisode`, closed over the episode it looked up: set
`this.isPlaying = true` and run `trackPlay(episode)`, which increments
`analytics.totalPlays` and adds the episode duration to
`analytics.totalTime` (`updateMiniPlayer`, `showMiniPlayer` and
`showNotification` only touch the DOM; `saveData` writes the separate
`podcastAppData` key, not a progress key).  This continuation runs only when
the promise fulfills, i.e. when no later load superseded this one; a later
`audio.src` assignment rejects the pending promise instead, running
`playEpisodeRejected`. -/
def playEpisodeResolved (s : PodcastApp) (episode : Episode) : PodcastApp :=
  { s with isPlaying := true
         , audioPaused := false
         , totalPlays := s.totalPlays + 1
         , totalTime := s.totalTime + episode.duration }

/-- The `.catch` continuation of the `audio.play()` promise issued by
`playEpisode`.  When a later `playEpisode` assigns `audio.src`, the media
element load algorithm rejects the still-pending `play()` promise with
`AbortError`, so the superseded load's late settlement runs this handler
instead of the fulfillment continuation; its body (`console.error` and
`showNotification`) touches only the console and the DOM, leaving every
engine field unchanged. -/
def playEpisodeRejected (s : PodcastApp) : PodcastApp :=
  s

/-- `togglePlayPause()` together with the event consequence of
`audio.pause()`: no current episode means no change.  While playing, the
code calls `audio.pause()` and clears `isPlaying`; the HTML internal pause
steps then fire a `timeupdate` event at the unchanged current position, and
the app's registered handler (`onTimeUpdate`) runs on it, calling
`saveProgress`.  While paused, it issues `audio.play()`, whose continuation
is `togglePlayPauseResolved`. -/
def togglePlayPause (s : PodcastApp) : PodcastApp :=
  match s.currentEpisode with
  | none => s
  | some _ =>
      if s.isPlaying then
        onTimeUpdate { s with audioPaused := true, isPlaying := false }
          s.audioCurrentTime
      else s

/-- The `.then` continuation of the `audio.play()` promise issued by the
paused branch of `togglePlayPause`. -/
def togglePlayPauseResolved (s : PodcastApp) : PodcastApp :=
  { s with isPlaying := true, audioPaused := false }

/-- `skipForward()`: guarded by the truthiness test
`if (this.audio.currentTime)`, which fails exactly at position `0`;
otherwise assign `Math.min(audio.currentTime + 30, this.duration)`. -/
def skipForward (s : PodcastApp) : PodcastApp :=
  if s.audioCurrentTime = 0 then s
  else { s with audioCurrentTime := min (s.audioCurrentTime + 30) s.duration }

/-- `skipBackward()`: guarded by the same truthiness test; otherwise assign
`Math.max(audio.currentTime - 15, 0)`. -/
def skipBackward (s : PodcastApp) : PodcastApp :=
  if s.audioCurrentTime = 0 then s
  else { s with audioCurrentTime := max (s.audioCurrentTime - 15) 0 }

/-- `setPlaybackRate(rate)`: assign `parseFloat(rate)` to
`this.playbackRate` and to the audio element, unconditionally (the
`rate` argument arrives already parsed as a number here). -/
def setPlaybackRate (s : PodcastApp) (rate : Rat) : PodcastApp :=
  { s with playbackRate := rate, audioPlaybackRate := rate }

end PodcastApp

namespace AudioService

/-- Modelled from the spec: the engine's lifecycle phase (§4.1); the
`AudioService` implementation itself is not among the provided sources, only
its callers are. -/
inductive Phase
  | idle
  | loading
  | paused
  | playing
  | ended
  | failed
deriving DecidableEq

/-- Modelled from the spec: the engine's playback snapshot, restricted to the
fields the restoration coordinator touches. -/
structure EngineState where
  currentEpisode : Option Episode
  phase : Phase
  position : Rat
  duration : Rat
deriving DecidableEq

/-- Modelled from the spec: `AudioService.loadEpisode` (not under the
provided sources) replaces any previously active episode and, on successful
metadata resolution, leaves the engine `Ready(Paused)` — it never
auto-plays (§4.1 `loadEpisode`). -/
def loadEpisode (e : Episode) (_s : EngineState) : EngineState :=
  { currentEpisode := some e
  , phase := Phase.paused
  , position := 0
  , duration := e.duration }

/-- Modelled from the spec: `AudioService.seekTo` (not under the provided
sources) clamps the requested value into `[0, duration]` and does not change
the lifecycle phase (§4.1 `seekTo`). -/
def seekTo (p : Rat) (s : EngineState) : EngineState :=
  { s with position := max 0 (min p s.duration) }

end AudioService

namespace PlaybackRestoration

/-- The persisted resume pointer consumed by `useAppLifecycle`:
`lastPlaybackState` carries the episode id and saved position. -/
structure LastPlaybackState where
  episodeId : Nat
  position : Rat
deriving DecidableEq

/-- Local state of the `PlaybackRestoration` component: the resolved
`episode`, the `lastPlaybackState` checkpoint (with `clearLastPlaybackState`
modelled as setting it to `none`), and the `isVisible` / `isLoading` flags. -/
structure RestorationState where
  episode : Option Episode
  lastPlaybackState : Option LastPlaybackState
  isVisible : Bool
  isLoading : Bool
deriving DecidableEq

/-- Result of `podcastService.getEpisodeById` as observed by the coordinator:
the episode, a not-found (null) result, or a thrown error. -/
inductive LookupResult
  | found (e : Episode)
  | notFound
  | errorThrown
deriving DecidableEq

/-- `loadEpisodeForRestoration()`: return early unless
`lastPlaybackState?.episodeId` is truthy; on a successful lookup that finds
the episode, set it and show the prompt; on a null lookup result, do
nothing; only when the lookup throws does the `catch` clear the
checkpoint (`clearLastPlaybackState`). -/
def loadEpisodeForRestoration (lookup : LookupResult)
    (c : RestorationState) : RestorationState :=
  match c.lastPlaybackState with
  | none => c
  | some lps =>
      if lps.episodeId = 0 then c
      else
        match lookup with
        | LookupResult.found epData =>
            { c with episode := some epData, isVisible := true }
        | LookupResult.notFound => c
        | LookupResult.errorThrown => { c with lastPlaybackState := none }

/-- `handleRestore()`: return early unless both `episode` and
`lastPlaybackState` are present; otherwise load the episode, seek to the
saved position, do not auto-play, clear the restoration checkpoint and hide
the prompt (with `isLoading` reset by the `finally` block). -/
def handleRestore (c : RestorationState)
    (eng : AudioService.EngineState) :
    RestorationState × AudioService.EngineState :=
  match c.episode, c.lastPlaybackState with
  | some ep, some lps =>
      let eng1 := AudioService.loadEpisode ep eng
      let eng2 := AudioService.seekTo lps.position eng1
      ({ c with lastPlaybackState := none
              , isVisible := false
              , isLoading := false }, eng2)
  | _, _ => (c, eng)

/-- `handleDismiss()`: clear the checkpoint and hide the prompt. -/
def handleDismiss (c : RestorationState) : RestorationState :=
  { c with lastPlaybackState := none, isVisible := false }

end PlaybackRestoration

/-- Sample state: episode 1 was loaded from a fresh profile and its
`audio.play()` promise resolved, so the app is playing episode 1. -/
def playingEp1 : PodcastApp :=
  PodcastApp.playEpisodeResolved (PodcastApp.playEpisode PodcastApp.initialState 1) episode1

/-- Sample state: a fresh profile whose `localStorage` already holds a saved
position of 500 seconds for episode 1 from an earlier session. -/
def storedEp1State : PodcastApp :=
  { PodcastApp.initialState with progressStore := [(1, 500)] }

/-- Sample cold-start coordinator state: a checkpoint for episode id 1 at
position 125 exists and no prompt is showing yet. -/
def coldStartState : PlaybackRestoration.RestorationState :=
  { episode := none
  , lastPlaybackState := some { episodeId := 1, position := 125 }
  , isVisible := false
  , isLoading := false }

/-- Sample coordinator state right after the restoration prompt resolved
episode 1 for the checkpoint at position 125 and became visible. -/
def resumePromptState : PlaybackRestoration.RestorationState :=
  { episode := some episode1
  , lastPlaybackState := some { episodeId := 1, position := 125 }
  , isVisible := true
  , isLoading := false }

/-- Sample engine state before restoration: nothing loaded. -/
def idleEngine : AudioService.EngineState :=
  { currentEpisode := none
  , phase := AudioService.Phase.idle
  , position := 0
  , duration := 0 }

/-- Writing a key into the `localStorage` model and reading the same key
back yields the value just written. -/
theorem storeLookup_storeSet (k : Nat) (v : Rat) (l : List (Nat × Rat)) :
    storeLookup k (storeSet k v l) = some v := by
  induction l with
  | nil => simp [storeSet, storeLookup]
  | cons hd tl ih =>
      obtain ⟨k2, v2⟩ := hd
      by_cases h : k2 = k
      · simp [storeSet, storeLookup, h]
      · simp [storeSet, storeLookup, h, ih]

/-- `playEpisode` never changes the catalog list. -/
theorem playEpisode_episodes (s : PodcastApp) (i : Nat) :
    (s.playEpisode i).episodes = s.episodes := by
  unfold PodcastApp.playEpisode
  cases PodcastApp.findEpisode s.episodes i with
  | none => rfl
  | some e =>
      dsimp only
      split <;> rfl

/-- When the id is found, `playEpisode` sets `currentEpisode` to the episode
found. -/
theorem playEpisode_currentEpisode (s : PodcastApp) (i : Nat) (e : Episode)
    (h : PodcastApp.findEpisode s.episodes i = some e) :
    (s.playEpisode i).currentEpisode = some e := by
  unfold PodcastApp.playEpisode
  rw [h]
  dsimp only
  split <;> rfl

/-- Claim C2: the spec says `skipForward()` from position `p` with known
duration `d` yields `min(p+30, d)`, in particular `30` from `p = 0` with
`d = 2700`.  The code disagrees at exactly `p = 0`: the truthiness guard
`if (this.audio.currentTime)` is falsy there, so `skipForward()` does
nothing and the position stays `0`.  From any positive position the claimed
formulas do hold, as the second and third conjuncts show. -/
theorem c2_skip_at_zero_code_bug :
    (PodcastApp.onLoadedMetadata (PodcastApp.playEpisode PodcastApp.initialState 1) 2700).audioCurrentTime = 0 ∧
    (PodcastApp.skipForward (PodcastApp.onLoadedMetadata (PodcastApp.playEpisode PodcastApp.initialState 1) 2700)).audioCurrentTime = 0 ∧
    (PodcastApp.skipForward { PodcastApp.onLoadedMetadata (PodcastApp.playEpisode PodcastApp.initialState 1) 2700 with audioCurrentTime := 2690 }).audioCurrentTime = 2700 ∧
    (PodcastApp.skipBackward { PodcastApp.onLoadedMetadata (PodcastApp.playEpisode PodcastApp.initialState 1) 2700 with audioCurrentTime := 10 }).audioCurrentTime = 0 := by
  refine ⟨?_, ?_, ?_, ?_⟩ <;>
    norm_num [PodcastApp.skipForward, PodcastApp.skipBackward, PodcastApp.onLoadedMetadata,
      PodcastApp.playEpisode, PodcastApp.findEpisode, PodcastApp.getEpisodeProgress,
      PodcastApp.initialState, storeLookup, episode1, jsTrunc]

/-- Claim C6, counterexample: `3.0` is outside the allowed rate set
`{0.5, 0.75, 1.0, 1.25, 1.5, 2.0}`, yet `setPlaybackRate(3)` changes the
stored `playbackRate` from `1` to `3` instead of rejecting it. -/
theorem c6_invalid_rate_counterexample :
    PodcastApp.initialState.playbackRate = 1 ∧
    (PodcastApp.initialState.setPlaybackRate 3).playbackRate = 3 := by
  decide

/-- Claim C6, amended: `setPlaybackRate(rate)` performs no validation and
raises no `InvalidRateError`; it unconditionally stores the parsed rate on
the app and the audio element, for rates inside and outside the allowed set
alike. -/
theorem c6_set_rate_unvalidated_amended (s : PodcastApp) (rate : Rat) :
    s.setPlaybackRate rate
      = { s with playbackRate := rate, audioPlaybackRate := rate } := rfl

/-- Claim C3, counterexample: the app is playing episode 1 at position
exactly 0 (playback just started) with an empty checkpoint store.
`togglePlayPause()` pauses, and the pause-fired `timeupdate` runs the
handler — but `saveProgress`'s `currentTime > 0` guard skips the write, so
no checkpoint for the current episode is written at the position active at
the moment of pause: the write is conditional, not unconditional. -/
theorem c3_pause_at_zero_counterexample :
    playingEp1.isPlaying = true ∧
    playingEp1.audioCurrentTime = 0 ∧
    playingEp1.togglePlayPause.isPlaying = false ∧
    playingEp1.togglePlayPause.progressStore = [] ∧
    playingEp1.togglePlayPause.progressWrites = 0 := by
  refine ⟨?_, ?_, ?_, ?_, ?_⟩ <;>
    norm_num [playingEp1, PodcastApp.togglePlayPause, PodcastApp.onTimeUpdate,
      PodcastApp.saveProgress, PodcastApp.playEpisodeResolved, PodcastApp.playEpisode,
      PodcastApp.findEpisode, PodcastApp.getEpisodeProgress, PodcastApp.initialState,
      storeLookup, episode1]

/-- Claim C3, amended: pausing via `togglePlayPause()` while playing does
result in a checkpoint for the current episode at the position active at
the moment of pause — the internal pause steps fire a `timeupdate` whose
handler calls `saveProgress` — but only when that position is positive;
at position exactly 0 the `currentTime > 0` guard skips the write, so the
flush is conditional rather than forced and unconditional. -/
theorem c3_pause_flush_amended (s : PodcastApp) (e : Episode)
    (hp : s.isPlaying = true) (he : s.currentEpisode = some e)
    (hpos : 0 < s.audioCurrentTime) :
    s.togglePlayPause.isPlaying = false ∧
    storeLookup e.id s.togglePlayPause.progressStore = some s.audioCurrentTime ∧
    s.togglePlayPause.progressWrites = s.progressWrites + 1 := by
  unfold PodcastApp.togglePlayPause PodcastApp.onTimeUpdate PodcastApp.saveProgress
  simp only [he, hp, if_true]
  rw [if_pos hpos]
  simp [storeLookup_storeSet]

/-- Witness for the amended Claim C3: pausing while playing episode 1 at
position 125 durably writes 125 for episode 1. -/
theorem c3_pause_flush_witness :
    ({ playingEp1 with currentTime := 125, audioCurrentTime := 125 } : PodcastApp).togglePlayPause.isPlaying = false ∧
    storeLookup episode1.id ({ playingEp1 with currentTime := 125, audioCurrentTime := 125 } : PodcastApp).togglePlayPause.progressStore = some 125 ∧
    ({ playingEp1 with currentTime := 125, audioCurrentTime := 125 } : PodcastApp).togglePlayPause.progressWrites
      = ({ playingEp1 with currentTime := 125, audioCurrentTime := 125 } : PodcastApp).progressWrites + 1 :=
  c3_pause_flush_amended _ episode1 rfl rfl (show (0 : Rat) < 125 by norm_num)

/-- Claim C4, counterexample: while playing episode 1, two consecutive
`timeupdate` ticks (at positions 5 and 5.1, which may arrive within the same
fraction of a second) each perform a durable store write — the write counter
advances on every tick, so writes are not throttled to one per interval. -/
theorem c4_no_throttle_counterexample :
    (playingEp1.onTimeUpdate 5).progressWrites = 1 ∧
    ((playingEp1.onTimeUpdate 5).onTimeUpdate (51/10)).progressWrites = 2 ∧
    storeLookup 1 ((playingEp1.onTimeUpdate 5).onTimeUpdate (51/10)).progressStore = some (51/10) := by
  refine ⟨?_, ?_, ?_⟩ <;>
    norm_num [playingEp1, PodcastApp.onTimeUpdate, PodcastApp.saveProgress,
      PodcastApp.playEpisodeResolved, PodcastApp.playEpisode, PodcastApp.findEpisode,
      PodcastApp.getEpisodeProgress, PodcastApp.initialState, storeSet, storeLookup, episode1]

/-- Claim C4, amended: checkpoint writes are not throttled at all — every
`timeupdate` tick with a current episode and a positive position performs
exactly one durable write of that position, however closely the ticks are
spaced. -/
theorem c4_every_tick_writes_amended (s : PodcastApp) (e : Episode) (t : Rat)
    (he : s.currentEpisode = some e) (ht : 0 < t) :
    (s.onTimeUpdate t).progressWrites = s.progressWrites + 1 ∧
    storeLookup e.id (s.onTimeUpdate t).progressStore = some t := by
  unfold PodcastApp.onTimeUpdate PodcastApp.saveProgress
  simp only [he, ht, if_pos, storeLookup_storeSet, and_self]

/-- Witness for the amended Claim C4 at the concrete playing state. -/
theorem c4_every_tick_writes_witness :
    (playingEp1.onTimeUpdate 5).progressWrites = playingEp1.progressWrites + 1 ∧
    storeLookup episode1.id (playingEp1.onTimeUpdate 5).progressStore = some 5 :=
  c4_every_tick_writes_amended playingEp1 episode1 5 rfl (by norm_num)

/-- Claim C5, counterexample: with episode 1 playing, position 100 is durably
written; a later write carrying the older position 50 (e.g. after the user
seeks backwards) simply overwrites it — the store keeps 50, not 100, so no
per-episode monotonic timestamp or sequence check exists. -/
theorem c5_overwrite_counterexample :
    storeLookup 1 (playingEp1.onTimeUpdate 100).progressStore = some 100 ∧
    storeLookup 1 ((playingEp1.onTimeUpdate 100).onTimeUpdate 50).progressStore = some 50 := by
  refine ⟨?_, ?_⟩ <;>
    norm_num [playingEp1, PodcastApp.onTimeUpdate, PodcastApp.saveProgress,
      PodcastApp.playEpisodeResolved, PodcastApp.playEpisode, PodcastApp.findEpisode,
      PodcastApp.getEpisodeProgress, PodcastApp.initialState, storeSet, storeLookup, episode1]

/-- Claim C5, amended: `saveProgress` performs no monotonicity or timestamp
check: whenever an episode is current and the position is positive, the write
unconditionally replaces whatever is durably stored for that episode —
including a newer (larger) previously stored position. -/
theorem c5_no_monotonic_guard_amended (s : PodcastApp) (e : Episode)
    (he : s.currentEpisode = some e) (ht : 0 < s.currentTime) :
    storeLookup e.id s.saveProgress.progressStore = some s.currentTime := by
  unfold PodcastApp.saveProgress
  simp only [he]
  rw [if_pos ht]
  exact storeLookup_storeSet ..

/-- Witness for the amended Claim C5: position 100 is already durably stored
for episode 1, yet a write at the older position 50 replaces it. -/
theorem c5_no_monotonic_guard_witness :
    storeLookup episode1.id
      ({ playingEp1 with currentTime := 50, progressStore := [(1, 100)] } : PodcastApp).saveProgress.progressStore
      = some 50 :=
  c5_no_monotonic_guard_amended _ episode1 rfl (by norm_num)

/-- Claim C10: round-trip of position persistence.  Writing a positive
position `t` with `saveProgress` and reading it back with
`getEpisodeProgress` returns the integer truncation of `t` (`parseInt` of
its decimal string); a position of exactly `0` is never persisted
(`saveProgress` is the identity there), and an episode with no stored entry
reads back as `0`. -/
theorem c10_progress_roundtrip (s : PodcastApp) (e : Episode) (t : Rat)
    (he : s.currentEpisode = some e) (ht : s.currentTime = t) (hpos : 0 < t) :
    s.saveProgress.getEpisodeProgress e.id = jsTrunc t ∧
    (∀ s2 : PodcastApp, s2.currentTime = 0 → s2.saveProgress = s2) ∧
    (∀ (s3 : PodcastApp) (i : Nat),
        storeLookup i s3.progressStore = none → s3.getEpisodeProgress i = 0) := by
  refine ⟨?_, ?_, ?_⟩
  · unfold PodcastApp.saveProgress PodcastApp.getEpisodeProgress
    simp only [he, ht]
    rw [if_pos hpos]
    simp [storeLookup_storeSet]
  · intro s2 h0
    unfold PodcastApp.saveProgress
    cases hce : s2.currentEpisode with
    | none => rfl
    | some e2 => rw [h0]; simp
  · intro s3 i h
    unfold PodcastApp.getEpisodeProgress
    rw [h]

/-- Witness for Claim C10: at position 125.7 of episode 1 the saved value
reads back as `jsTrunc (125.7) = 125`, and the degenerate conjuncts hold. -/
theorem c10_progress_roundtrip_witness :
    ({ playingEp1 with currentTime := 1257/10 } : PodcastApp).saveProgress.getEpisodeProgress episode1.id
      = jsTrunc (1257/10) ∧
    (∀ s2 : PodcastApp, s2.currentTime = 0 → s2.saveProgress = s2) ∧
    (∀ (s3 : PodcastApp) (i : Nat),
        storeLookup i s3.progressStore = none → s3.getEpisodeProgress i = 0) :=
  c10_progress_roundtrip _ episode1 (1257/10) rfl rfl (by norm_num)

/-- Truncation sanity check for the witness value: `jsTrunc (125.7) = 125`. -/
theorem jsTrunc_sample : jsTrunc (1257/10) = 125 := by
  unfold jsTrunc
  rw [if_pos (by norm_num)]
  rw [Rat.floor_def']
  norm_num

/-- Claim C1: issuing `playEpisode(A)` then `playEpisode(B)` before `A`'s
metadata resolves leaves `currentEpisode = B`, and `A`'s late asynchronous
settlement has no observable effect on the engine state.  Assigning episode
`B`'s `audio.src` invokes the media element load algorithm, which rejects
`A`'s still-pending `play()` promise with `AbortError`; `A`'s late
settlement therefore runs the `.catch` handler `playEpisodeRejected`, which
leaves the state — and thus `B`'s state — unchanged. -/
theorem c1_superseded_load_discarded (s : PodcastApp) (a b : Episode)
    (_ha : PodcastApp.findEpisode s.episodes a.id = some a)
    (hb : PodcastApp.findEpisode s.episodes b.id = some b) :
    ((s.playEpisode a.id).playEpisode b.id).currentEpisode = some b ∧
    PodcastApp.playEpisodeRejected ((s.playEpisode a.id).playEpisode b.id)
      = (s.playEpisode a.id).playEpisode b.id := by
  have hb2 : PodcastApp.findEpisode (s.playEpisode a.id).episodes b.id = some b := by
    rw [playEpisode_episodes]; exact hb
  exact ⟨playEpisode_currentEpisode (s.playEpisode a.id) b.id b hb2, rfl⟩

/-- Witness for Claim C1 with episodes 1 and 2 of the catalog. -/
theorem c1_superseded_load_discarded_witness :
    ((PodcastApp.initialState.playEpisode episode1.id).playEpisode episode2.id).currentEpisode = some episode2 ∧
    PodcastApp.playEpisodeRejected ((PodcastApp.initialState.playEpisode episode1.id).playEpisode episode2.id)
      = (PodcastApp.initialState.playEpisode episode1.id).playEpisode episode2.id :=
  c1_superseded_load_discarded PodcastApp.initialState episode1 episode2 rfl rfl

/-- Claim C7, counterexample: episode 1 has saved restore data (position
500).  `playEpisode(1)` seeks the audio element to 500 — but it was invoked
precisely to play: when its `audio.play()` promise resolves, the engine is
playing without any separate user `play()` command, so the load does
auto-play. -/
theorem c7_autoplay_counterexample :
    (storedEp1State.playEpisode 1).audioCurrentTime = 500 ∧
    (storedEp1State.playEpisode 1).isPlaying = false ∧
    ((storedEp1State.playEpisode 1).playEpisodeResolved episode1).isPlaying = true := by
  refine ⟨?_, ?_, ?_⟩ <;>
    norm_num [storedEp1State, PodcastApp.playEpisode, PodcastApp.findEpisode,
      PodcastApp.getEpisodeProgress, PodcastApp.playEpisodeResolved,
      PodcastApp.initialState, storeLookup, episode1, jsTrunc, Rat.floor_def']

/-- Claim C7, amended: for an episode with saved restore data, `playEpisode`
assigns the truncated saved position to `audio.currentTime` immediately (it
does not wait for metadata), and then auto-plays: once the issued
`audio.play()` promise resolves the engine is in the playing state, without
any separate `play()` call from the user. -/
theorem c7_restore_then_autoplay_amended (s : PodcastApp) (e : Episode) (p : Rat)
    (hfind : PodcastApp.findEpisode s.episodes e.id = some e)
    (hsaved : storeLookup e.id s.progressStore = some p)
    (hppos : 0 < jsTrunc p) :
    (s.playEpisode e.id).audioCurrentTime = ((jsTrunc p : Int) : Rat) ∧
    (s.playEpisode e.id).currentEpisode = some e ∧
    ((s.playEpisode e.id).playEpisodeResolved e).isPlaying = true := by
  unfold PodcastApp.playEpisode PodcastApp.getEpisodeProgress
  rw [hfind]
  simp only [hsaved]
  rw [if_pos hppos]
  simp [PodcastApp.playEpisodeResolved]

/-- Witness for the amended Claim C7 at saved position 500 for episode 1. -/
theorem c7_restore_then_autoplay_witness :
    (storedEp1State.playEpisode episode1.id).audioCurrentTime = ((jsTrunc 500 : Int) : Rat) ∧
    (storedEp1State.playEpisode episode1.id).currentEpisode = some episode1 ∧
    ((storedEp1State.playEpisode episode1.id).playEpisodeResolved episode1).isPlaying = true :=
  c7_restore_then_autoplay_amended storedEp1State episode1 500 rfl rfl
    (by norm_num [jsTrunc, Rat.floor_def'])

/-- Claim C8: in the cold-start restoration flow, with the saved episode
resolved and a checkpoint present, choosing Resume runs `handleRestore`,
which loads the episode, seeks to the saved position (clamped into the
episode's duration) and leaves the engine paused — it never auto-plays —
and clears the restoration checkpoint. -/
theorem c8_resume_leaves_paused (c : PlaybackRestoration.RestorationState)
    (eng : AudioService.EngineState) (ep : Episode)
    (lps : PlaybackRestoration.LastPlaybackState)
    (hep : c.episode = some ep) (hlps : c.lastPlaybackState = some lps)
    (h0 : 0 ≤ lps.position) (hd : lps.position ≤ ep.duration) :
    (PlaybackRestoration.handleRestore c eng).2.currentEpisode = some ep ∧
    (PlaybackRestoration.handleRestore c eng).2.phase = AudioService.Phase.paused ∧
    (PlaybackRestoration.handleRestore c eng).2.position = lps.position ∧
    (PlaybackRestoration.handleRestore c eng).1.lastPlaybackState = none := by
  have hclamp : max 0 (min lps.position ep.duration) = lps.position := by
    rw [min_eq_left hd, max_eq_right h0]
  refine ⟨?_, ?_, ?_, ?_⟩ <;>
    simp [PlaybackRestoration.handleRestore, hep, hlps,
      AudioService.loadEpisode, AudioService.seekTo, hclamp]

/-- Witness for Claim C8: resuming episode 1 at checkpoint position 125
leaves the engine paused at 125 with the checkpoint cleared. -/
theorem c8_resume_leaves_paused_witness :
    (PlaybackRestoration.handleRestore resumePromptState idleEngine).2.currentEpisode = some episode1 ∧
    (PlaybackRestoration.handleRestore resumePromptState idleEngine).2.phase = AudioService.Phase.paused ∧
    (PlaybackRestoration.handleRestore resumePromptState idleEngine).2.position = 125 ∧
    (PlaybackRestoration.handleRestore resumePromptState idleEngine).1.lastPlaybackState = none :=
  c8_resume_leaves_paused resumePromptState idleEngine episode1
    { episodeId := 1, position := 125 } rfl rfl (by norm_num) (by norm_num [episode1])

/-- Claim C9, counterexample: a checkpoint for episode id 1 exists and the
catalog lookup reports not-found (a null result, not a thrown error).  The
coordinator shows no prompt, but it does not clear the checkpoint either —
`lastPlaybackState` survives untouched, contradicting the claimed silent
clearing. -/
theorem c9_notfound_counterexample :
    (PlaybackRestoration.loadEpisodeForRestoration PlaybackRestoration.LookupResult.notFound coldStartState).lastPlaybackState
      = some { episodeId := 1, position := 125 } ∧
    (PlaybackRestoration.loadEpisodeForRestoration PlaybackRestoration.LookupResult.notFound coldStartState).isVisible = false :=
  ⟨rfl, rfl⟩

/-- Claim C9, amended: when the catalog lookup returns not-found the
coordinator does nothing at all — no prompt, but the checkpoint is kept;
the checkpoint is cleared (still without a prompt) only when the lookup
throws, via the `catch` branch. -/
theorem c9_notfound_keeps_checkpoint_amended (c : PlaybackRestoration.RestorationState)
    (lps : PlaybackRestoration.LastPlaybackState)
    (h : c.lastPlaybackState = some lps) (hid : lps.episodeId ≠ 0) :
    PlaybackRestoration.loadEpisodeForRestoration PlaybackRestoration.LookupResult.notFound c = c ∧
    (PlaybackRestoration.loadEpisodeForRestoration PlaybackRestoration.LookupResult.errorThrown c).lastPlaybackState = none ∧
    (PlaybackRestoration.loadEpisodeForRestoration PlaybackRestoration.LookupResult.errorThrown c).isVisible = c.isVisible := by
  unfold PlaybackRestoration.loadEpisodeForRestoration
  rw [h]
  simp [hid]

/-- Witness for the amended Claim C9 at the sample cold-start state. -/
theorem c9_notfound_keeps_checkpoint_witness :
    PlaybackRestoration.loadEpisodeForRestoration PlaybackRestoration.LookupResult.notFound coldStartState = coldStartState ∧
    (PlaybackRestoration.loadEpisodeForRestoration PlaybackRestoration.LookupResult.errorThrown coldStartState).lastPlaybackState = none ∧
    (PlaybackRestoration.loadEpisodeForRestoration PlaybackRestoration.LookupResult.errorThrown coldStartState).isVisible = coldStartState.isVisible :=
  c9_notfound_keeps_checkpoint_amended coldStartState
    { episodeId := 1, position := 125 } rfl (by decide)
